import Mathlib

/-!
Verification of the cc1101 radio driver (Rust sources: `src/lib.rs`,
`src/config0.rs`, `src/lowlevel.rs`) against its natural-language
specification.

The driver is embedded shallowly: every bus transaction a driver function
performs is recorded in a trace (`BusOp`), single-register read responses
come from an environment function `env : Nat → Nat` (the value returned by
the k-th single-register read), and the unbounded poll loops of the source
are modelled with an explicit fuel parameter (`none` = loop still running
when fuel runs out).  Machine integers are `Nat` with explicit masking
where the source masks.
-/

namespace CC1101

/-- One SPI bus transaction, as issued by the driver.  Burst operations
record the address byte actually placed on the wire (the source computes
`addr | 0b1100_0000` / `addr | 0b0100_0000` inline in `read_burst` /
`write_burst`); single-register operations record the logical register
address, whose wire framing is captured separately by `raddr`/`waddr`. -/
inductive BusOp
  | readReg (addr : Nat)
  | writeReg (addr : Nat) (val : Nat)
  | readBurst (addrByte : Nat) (len : Nat)
  | writeBurst (addrByte : Nat) (data : List Nat)
  | strobe (addr : Nat)
deriving DecidableEq, Repr

/-- Crystal frequency, `pub const FXOSC: u64 = 27_000_000` in lowlevel.rs. -/
def FXOSC : Nat := 27000000

namespace Command

/-- Modelled from the spec: strobe/command addresses are chip-datasheet
constants enumerated in the missing `lowlevel/registers.rs` (§6: "Exact
addresses are chip-datasheet constants the implementer enumerates once"). -/
def SRES : Nat := 0x30

def SCAL : Nat := 0x33

def SRX : Nat := 0x34

def STX : Nat := 0x35

def SIDLE : Nat := 0x36

def SPWD : Nat := 0x39

def SFRX : Nat := 0x3A

def SFTX : Nat := 0x3B

def SNOP : Nat := 0x3D

def PATABLE : Nat := 0x3E

def FIFO : Nat := 0x3F

end Command

namespace Status

/-- Modelled from the spec: the status-register address for the chip's
internal FSM state, from the missing `lowlevel/registers.rs`. -/
def MARCSTATE : Nat := 0x35

end Status

namespace Config

/-- Modelled from the spec: config register addresses, from the missing
`lowlevel/registers.rs` (datasheet constants). -/
def FREQ2 : Nat := 0x0D

def FREQ1 : Nat := 0x0E

def FREQ0 : Nat := 0x0F

def MDMCFG2 : Nat := 0x12

def AGCCTRL2 : Nat := 0x17

def MCSM0 : Nat := 0x18

end Config

namespace MachineState

/-- Modelled from the spec: `MachineState` codes (missing
`lowlevel/types.rs`); datasheet MARC_STATE values for the terminal states
Idle/RX/TX referenced by the spec's state machine. -/
def IDLE : Nat := 0x01

def RX : Nat := 0x0D

def TX : Nat := 0x13

end MachineState

/-- Radio operational mode, from lib.rs. -/
inductive RadioMode
  | Receive
  | Transmit
  | Idle
  | Calibrate
deriving DecidableEq, Repr

/-- CC1101 error type, from lib.rs lines 25-33. -/
inductive Error (ε : Type)
  | Spi (e : ε)
  | RxOverflow
  | CrcMismatch
deriving DecidableEq

/-- The `nb::Result` shape used by `receive`/`transmit_poll`: success,
would-block, or an error. -/
inductive NbResult (α ε : Type)
  | ok (a : α)
  | wouldBlock
  | err (e : ε)
deriving DecidableEq

/-- Modelled from the spec: `Register::waddr` (missing
`lowlevel/registers.rs`); §4.1 "write-single = base address, unmodified". -/
def waddr (a : Nat) : Nat := a

/-- Modelled from the spec: `Register::raddr` (missing
`lowlevel/registers.rs`); §4.1 "read-single = base address with the read
bit set" (bit 7). -/
def raddr (a : Nat) : Nat := a ||| 0x80

/-- Address byte of a burst read, `addr | 0b1100_0000` in
`read_burst` (lowlevel.rs line 45). -/
def burst_read_addr (a : Nat) : Nat := a ||| 0xC0

/-- Address byte of a burst write, `addr | 0b0100_0000` in
`write_burst` (lowlevel.rs line 51). -/
def burst_write_addr (a : Nat) : Nat := a ||| 0x40

/-- Modelled from the spec: `MARCSTATE(..).marc_state()` extracts the
FSM-state bitfield of the MARCSTATE status byte (missing
`lowlevel/types.rs`; the datasheet field is bits 4..0). -/
def marc_state (r : Nat) : Nat := r % 32

/-- Trace of `write_fifo` (lowlevel.rs line 62): one burst write to the
FIFO address. -/
def write_fifo (buf : List Nat) : List BusOp :=
  [BusOp.writeBurst (burst_write_addr Command.FIFO) buf]

/-- Trace of `read_fifo` (lowlevel.rs line 58) for a buffer of `n` bytes:
one burst read at the FIFO address. -/
def read_fifo (n : Nat) : List BusOp :=
  [BusOp.readBurst (burst_read_addr Command.FIFO) n]

/-- Trace of `flush_tx` (lib.rs line 290): a single SFTX strobe. -/
def flush_tx : List BusOp := [BusOp.strobe Command.SFTX]

/-- `await_machine_state` (lib.rs lines 329-336): loop reading MARCSTATE
until the extracted state equals `target`.  `env j` is the raw byte of the
j-th single-register read; `k` the index of the next read; `fuel` bounds
the number of iterations we unroll (`none` = target not observed within
`fuel` polls, i.e. the source loop is still spinning).  Returns the next
read index and the trace. -/
def await_machine_state (env : Nat → Nat) (target : Nat) :
    Nat → Nat → Option (Nat × List BusOp)
  | 0, _ => none
  | fuel + 1, k =>
    if marc_state (env k) = target then
      some (k + 1, [BusOp.readReg Status.MARCSTATE])
    else
      match await_machine_state env target fuel (k + 1) with
      | none => none
      | some (k2, t) => some (k2, BusOp.readReg Status.MARCSTATE :: t)

/-- `set_radio_mode(RadioMode::Idle)` (lib.rs lines 243-246 specialised to
Idle): strobe SIDLE, then await IDLE.  Split out so that
`send_radio_mode_strobe`'s Calibrate arm, which calls
`set_radio_mode(Idle)` in the source, is well-founded; the lemma
`set_radio_mode_idle_eq` below shows it agrees with the general
`set_radio_mode` at `Idle`. -/
def set_radio_mode_idle (env : Nat → Nat) (fuel k : Nat) :
    Option (Nat × List BusOp) :=
  match await_machine_state env MachineState.IDLE fuel k with
  | none => none
  | some (k2, t) => some (k2, BusOp.strobe Command.SIDLE :: t)

/-- `send_radio_mode_strobe` (lib.rs lines 256-281): one strobe per target
mode, except Calibrate, which first runs `set_radio_mode(Idle)` and then
strobes SCAL.  Returns the expected terminal `MachineState` code, the next
read index and the trace. -/
def send_radio_mode_strobe (env : Nat → Nat) (fuel k : Nat) :
    RadioMode → Option (Nat × Nat × List BusOp)
  | RadioMode.Receive => some (MachineState.RX, k, [BusOp.strobe Command.SRX])
  | RadioMode.Transmit => some (MachineState.TX, k, [BusOp.strobe Command.STX])
  | RadioMode.Idle => some (MachineState.IDLE, k, [BusOp.strobe Command.SIDLE])
  | RadioMode.Calibrate =>
    match set_radio_mode_idle env fuel k with
    | none => none
    | some (k2, t) => some (MachineState.IDLE, k2, t ++ [BusOp.strobe Command.SCAL])

/-- `set_radio_mode` (lib.rs lines 243-246): send the mode strobe, then
await the returned terminal state. -/
def set_radio_mode (env : Nat → Nat) (fuel k : Nat) (m : RadioMode) :
    Option (Nat × List BusOp) :=
  match send_radio_mode_strobe env fuel k m with
  | none => none
  | some (target, k2, t) =>
    match await_machine_state env target fuel k2 with
    | none => none
    | some (k3, t2) => some (k3, t ++ t2)

/-- `transmit` (config0.rs lines 32-40): write payload to FIFO, go to
Transmit mode (blocking), await IDLE, flush TX. -/
def transmit (env : Nat → Nat) (fuel k : Nat) (payload : List Nat) :
    Option (Nat × List BusOp) :=
  match set_radio_mode env fuel k RadioMode.Transmit with
  | none => none
  | some (k2, t2) =>
    match await_machine_state env MachineState.IDLE fuel k2 with
    | none => none
    | some (k3, t3) => some (k3, write_fifo payload ++ t2 ++ t3 ++ flush_tx)

/-- `transmit_start` (config0.rs lines 46-50): write payload to FIFO, send
the Transmit strobe; no polling, no flush. -/
def transmit_start (env : Nat → Nat) (fuel k : Nat) (payload : List Nat) :
    Option (Nat × List BusOp) :=
  match send_radio_mode_strobe env fuel k RadioMode.Transmit with
  | none => none
  | some (_, k2, t) => some (k2, write_fifo payload ++ t)

/-- `transmit_poll` (config0.rs lines 53-60): one MARCSTATE read; if the
state is IDLE, flush TX and report completion, else report would-block. -/
def transmit_poll (ε : Type) (env : Nat → Nat) (k : Nat) :
    NbResult Unit (Error ε) × Nat × List BusOp :=
  if marc_state (env k) = MachineState.IDLE then
    (NbResult.ok (), k + 1, [BusOp.readReg Status.MARCSTATE, BusOp.strobe Command.SFTX])
  else
    (NbResult.wouldBlock, k + 1, [BusOp.readReg Status.MARCSTATE])

/-- `receive` (config0.rs lines 13-26): if the gdo2 pin is high, burst-read
32 bytes from the FIFO and return them (an SPI failure of that read maps to
`Error::Spi` via `From`); if the pin is low, report would-block with no bus
traffic.  `fifoRead` is the outcome of the bus transaction: the 32 bytes
delivered, or the transport error. -/
def receive (ε : Type) (gdo2 : Bool) (fifoRead : Except ε (Fin 32 → Nat)) :
    NbResult (List Nat) (Error ε) × List BusOp :=
  if gdo2 then
    match fifoRead with
    | Except.ok d => (NbResult.ok (List.ofFn d), read_fifo 32)
    | Except.error e => (NbResult.err (Error.Spi e), read_fifo 32)
  else
    (NbResult.wouldBlock, [])

/-- The eight PATABLE bytes of `write_patable` (config0.rs line 105). -/
def patable_bytes : List Nat := [0x03, 0x0E, 0x1E, 0x27, 0x8E, 0xCD, 0xC7, 0xC0]

/-- `write_patable` (config0.rs lines 103-106): one burst write of the
fixed eight bytes to the PATABLE address. -/
def write_patable : List BusOp :=
  [BusOp.writeBurst (burst_write_addr Command.PATABLE) patable_bytes]

/-- `configure` (config0.rs lines 98-102): apply the register
configuration, then write the PATABLE.  The register configuration itself
is `config_1` from the missing `configs.rs`; modelled from the spec as an
arbitrary trace `cfg` of bus operations ("after applying the register
configuration"). -/
def configure (cfg : List BusOp) : List BusOp := cfg ++ write_patable

/-- Whether a bus operation is a strobe. -/
def BusOp.isStrobe : BusOp → Bool
  | BusOp.strobe _ => true
  | _ => false

/-- Modelled from the spec: the 24-bit frequency word of `from_frequency`
(missing `lowlevel/convert.rs`); §4.2 "a 24-bit value computed as
`round(hz * 2^16 / crystalHz)`", rounded to nearest. -/
def freq_word (hz : Nat) : Nat := (hz * 65536 + FXOSC / 2) / FXOSC

/-- Modelled from the spec: `from_frequency` (missing
`lowlevel/convert.rs`) splits the frequency word into three bytes
(low/mid/high). -/
def from_frequency (hz : Nat) : Nat × Nat × Nat :=
  (freq_word hz % 256, freq_word hz / 256 % 256, freq_word hz / 65536 % 256)

/-- Modelled from the spec: the inverse conversion, §4.2 "inverse recovers
`hz ≈ value * crystalHz / 2^16`". -/
def to_frequency (f0 f1 f2 : Nat) : Nat :=
  (f0 + 256 * f1 + 65536 * f2) * FXOSC / 65536

/-- `set_frequency` (lib.rs lines 70-76): write the three frequency bytes
to FREQ0/FREQ1/FREQ2. -/
def set_frequency (hz : Nat) : List BusOp :=
  [BusOp.writeReg Config.FREQ0 (from_frequency hz).1,
   BusOp.writeReg Config.FREQ1 (from_frequency hz).2.1,
   BusOp.writeReg Config.FREQ2 (from_frequency hz).2.2]

/-- Modelled from the spec: field-local mutation of a register byte
(missing `lowlevel/types.rs` bitfield builders); §3 "BitfieldValue: a
register's raw byte plus named sub-fields (widths and bit offsets fixed
per register); mutation is field-local".  Clears the `w`-bit-wide field at
bit offset `off` of byte `r` and inserts `v` there. -/
def setField (off w r v : Nat) : Nat :=
  (r &&& ((2 ^ 8 - 1) ^^^ ((2 ^ w - 1) <<< off))) ||| ((v &&& (2 ^ w - 1)) <<< off)

/-- Modelled from the spec: `MDMCFG2(r).modify().mod_format(v).bits()`
(missing `lowlevel/types.rs`); datasheet MOD_FORMAT field, bits 6..4. -/
def mod_format_set (r v : Nat) : Nat := setField 4 3 r v

/-- Modelled from the spec: `AGCCTRL2(r).modify().magn_target(v).bits()`
(missing `lowlevel/types.rs`); datasheet MAGN_TARGET field, bits 2..0. -/
def magn_target_set (r v : Nat) : Nat := setField 0 3 r v

/-- Modelled from the spec: `MCSM0(r).modify().fs_autocal(v).bits()`
(missing `lowlevel/types.rs`); datasheet FS_AUTOCAL field, bits 5..4. -/
def fs_autocal_set (r v : Nat) : Nat := setField 4 2 r v

/-- `modify_register` (lowlevel.rs lines 95-103): read the register, write
back `f` of the value read.  `env k` is the byte the read returns. -/
def modify_register (env : Nat → Nat) (k addr : Nat) (f : Nat → Nat) :
    Nat × List BusOp :=
  (k + 1, [BusOp.readReg addr, BusOp.writeReg addr (f (env k))])

/-- `set_modulation` (lib.rs lines 191-205): read-modify-write of the
MOD_FORMAT field of MDMCFG2. -/
def set_modulation (env : Nat → Nat) (k v : Nat) : Nat × List BusOp :=
  modify_register env k Config.MDMCFG2 (fun r => mod_format_set r v)

/-- `set_agc_target` (lib.rs lines 88-93): read-modify-write of the
MAGN_TARGET field of AGCCTRL2. -/
def set_agc_target (env : Nat → Nat) (k v : Nat) : Nat × List BusOp :=
  modify_register env k Config.AGCCTRL2 (fun r => magn_target_set r v)

/-- `set_autocalibration` (lib.rs lines 110-115): read-modify-write of the
FS_AUTOCAL field of MCSM0. -/
def set_autocalibration (env : Nat → Nat) (k v : Nat) : Nat × List BusOp :=
  modify_register env k Config.MCSM0 (fun r => fs_autocal_set r v)

/-! ## Helper lemmas -/

/-- The specialised `set_radio_mode_idle` is exactly `set_radio_mode` at
`RadioMode.Idle`, so `send_radio_mode_strobe`'s Calibrate arm faithfully
mirrors the source's `self.set_radio_mode(RadioMode::Idle)?` call. -/
theorem set_radio_mode_idle_eq (env : Nat → Nat) (fuel k : Nat) :
    set_radio_mode env fuel k RadioMode.Idle = set_radio_mode_idle env fuel k := by
  unfold set_radio_mode set_radio_mode_idle send_radio_mode_strobe
  cases h : await_machine_state env MachineState.IDLE fuel k <;> simp [h]

/-- If the observed machine state never equals the target, the poll loop
returns `none` for every fuel bound: the source loop never terminates. -/
lemma await_none_of_never (env : Nat → Nat) (target : Nat) :
    ∀ fuel k, (∀ n, marc_state (env (k + n)) ≠ target) →
      await_machine_state env target fuel k = none := by
  intro fuel
  induction fuel with
  | zero => intro k _; rfl
  | succ fuel ih =>
    intro k h
    have h0 : marc_state (env k) ≠ target := by simpa using h 0
    have hrec : await_machine_state env target fuel (k + 1) = none := by
      refine ih (k + 1) (fun n => ?_)
      rw [Nat.add_right_comm, Nat.add_assoc]
      exact h (n + 1)
    simp [await_machine_state, h0, hrec]

/-- Anatomy of a successful poll loop: it returns exactly when the `n`-th
read (the first to do so) observes the target state, having issued one
MARCSTATE read per iteration, `n + 1` reads in total. -/
lemma await_some_spec (env : Nat → Nat) (target : Nat) :
    ∀ fuel k k' tr, await_machine_state env target fuel k = some (k', tr) →
      ∃ n, n < fuel ∧ marc_state (env (k + n)) = target ∧
        (∀ m, m < n → marc_state (env (k + m)) ≠ target) ∧
        k' = k + n + 1 ∧
        tr = List.replicate (n + 1) (BusOp.readReg Status.MARCSTATE) := by
  intro fuel
  induction fuel with
  | zero => intro k k' tr h; exact absurd h (by simp [await_machine_state])
  | succ fuel ih =>
    intro k k' tr h
    by_cases h0 : marc_state (env k) = target
    · simp [await_machine_state, h0] at h
      exact ⟨0, Nat.succ_pos _, by simpa using h0, fun m hm => absurd hm (Nat.not_lt_zero m),
        by omega, by simp [h.2.symm]⟩
    · cases hrec : await_machine_state env target fuel (k + 1) with
      | none => simp [await_machine_state, h0, hrec] at h
      | some p =>
        obtain ⟨k2, t⟩ := p
        simp [await_machine_state, h0, hrec] at h
        obtain ⟨n, hn, hhit, hmiss, hk, ht⟩ := ih (k + 1) k2 t hrec
        refine ⟨n + 1, by omega, ?_, ?_, by omega, ?_⟩
        · have harg : k + (n + 1) = k + 1 + n := by omega
          rw [harg]
          exact hhit
        · intro m hm
          cases m with
          | zero => simpa using h0
          | succ m =>
            have harg : k + (m + 1) = k + 1 + m := by omega
            rw [harg]
            exact hmiss m (by omega)
        · rw [← h.2, ht]
          simp [List.replicate_succ]

/-- Bits outside the field at offset `off` of width `w` are unchanged by
`setField`: the write-back byte agrees with the byte read on every other
bit of the register byte. -/
lemma setField_testBit_outside (off w r v i : Nat) (hi : i < 8)
    (hout : i < off ∨ off + w ≤ i) :
    (setField off w r v).testBit i = r.testBit i := by
  have h255 : Nat.testBit 255 i = true := by
    have he : (255 : Nat) = 2 ^ 8 - 1 := by norm_num
    rw [he, Nat.testBit_two_pow_sub_one]
    simpa using hi
  rcases hout with h | h
  · have h1 : ¬ off ≤ i := by omega
    simp [setField, Nat.testBit_two_pow_sub_one, hi, h1, h255]
  · have h1 : off ≤ i := by omega
    have h2 : ¬ (i - off < w) := by omega
    simp [setField, Nat.testBit_two_pow_sub_one, hi, h1, h2, h255]

/-! ## Claim theorems -/

/-- C3: for every valid 6-bit base address, a single write uses the base
address unmodified; a single read sets exactly the read bit (bit 7); a
burst write sets exactly the burst bit (bit 6, address OR 0x40); a burst
read sets exactly both bits (address OR 0xC0); no other bit of the address
byte is changed. -/
theorem address_encoding_exact :
    ∀ a, a < 64 → ∀ i, i < 8 →
      waddr a = a ∧
      (raddr a).testBit i = (a.testBit i || decide (i = 7)) ∧
      (burst_write_addr a).testBit i = (a.testBit i || decide (i = 6)) ∧
      (burst_read_addr a).testBit i =
        (a.testBit i || decide (i = 6) || decide (i = 7)) ∧
      raddr a = a + 128 ∧ burst_write_addr a = a + 64 ∧
      burst_read_addr a = a + 192 := by
  decide

/-- Witness for C3 at base address 42, bit 6. -/
theorem address_encoding_exact_witness :
    waddr 42 = 42 ∧
    (raddr 42).testBit 6 = (Nat.testBit 42 6 || decide ((6 : Nat) = 7)) ∧
    (burst_write_addr 42).testBit 6 = (Nat.testBit 42 6 || decide ((6 : Nat) = 6)) ∧
    (burst_read_addr 42).testBit 6 =
      (Nat.testBit 42 6 || decide ((6 : Nat) = 6) || decide ((6 : Nat) = 7)) ∧
    raddr 42 = 42 + 128 ∧ burst_write_addr 42 = 42 + 64 ∧
    burst_read_addr 42 = 42 + 192 :=
  address_encoding_exact 42 (by decide) 6 (by decide)

/-- C10: every successful `configure` ends with the unconditional burst
write of the fixed 8-byte power table to the PATABLE, after the register
configuration trace `cfg`; and `write_patable` writes exactly those eight
bytes. -/
theorem configure_writes_patable (cfg : List BusOp) :
    configure cfg =
      cfg ++ [BusOp.writeBurst (burst_write_addr Command.PATABLE)
        [0x03, 0x0E, 0x1E, 0x27, 0x8E, 0xCD, 0xC7, 0xC0]] ∧
    write_patable =
      [BusOp.writeBurst (burst_write_addr Command.PATABLE)
        [0x03, 0x0E, 0x1E, 0x27, 0x8E, 0xCD, 0xC7, 0xC0]] :=
  ⟨rfl, rfl⟩

/-- C7: `set_frequency` writes the three bytes (low/mid/high) of the
rounded 24-bit frequency word to FREQ0/FREQ1/FREQ2, and for the
representative target frequencies 433.92 MHz, 868.3 MHz and 915.0 MHz the
decoded value is within one quantization step (FXOSC / 2^16 Hz, stated as
|decode - hz| * 2^16 ≤ FXOSC) of the input. -/
theorem frequency_round_trip :
    (∀ hz, set_frequency hz =
      [BusOp.writeReg Config.FREQ0 (freq_word hz % 256),
       BusOp.writeReg Config.FREQ1 (freq_word hz / 256 % 256),
       BusOp.writeReg Config.FREQ2 (freq_word hz / 65536 % 256)]) ∧
    ∀ hz ∈ [433920000, 868300000, 915000000],
      freq_word hz < 2 ^ 24 ∧
      ((to_frequency (from_frequency hz).1 (from_frequency hz).2.1
          (from_frequency hz).2.2 : Int) - hz).natAbs * 65536 ≤ FXOSC := by
  exact ⟨fun hz => rfl, by decide⟩

/-- Witness for C7 at 433.92 MHz. -/
theorem frequency_round_trip_witness :
    freq_word 433920000 < 2 ^ 24 ∧
    ((to_frequency (from_frequency 433920000).1 (from_frequency 433920000).2.1
        (from_frequency 433920000).2.2 : Int) - 433920000).natAbs * 65536 ≤ FXOSC :=
  frequency_round_trip.2 433920000 (by decide)

/-- C2: with the ready pin low, `receive` issues zero bus transactions and
reports would-block; with the pin high, it issues exactly one FIFO burst
read and returns the 32-byte payload exactly as read from the bus. -/
theorem receive_pin_contract (ε : Type) (gdo2 : Bool)
    (fifoRead : Except ε (Fin 32 → Nat)) :
    (gdo2 = false → receive ε gdo2 fifoRead = (NbResult.wouldBlock, [])) ∧
    (∀ d, gdo2 = true → fifoRead = Except.ok d →
      receive ε gdo2 fifoRead =
        (NbResult.ok (List.ofFn d),
         [BusOp.readBurst (burst_read_addr Command.FIFO) 32]) ∧
      (List.ofFn d).length = 32) := by
  constructor
  · intro h
    simp [receive, h]
  · intro d h hf
    subst h
    subst hf
    exact ⟨rfl, by simp⟩

/-- Witness for C2: pin high, bus delivers 32 zero bytes. -/
theorem receive_pin_contract_witness :
    receive Unit true (Except.ok (fun _ => (0 : Nat))) =
      (NbResult.ok (List.ofFn (fun _ : Fin 32 => (0 : Nat))),
       [BusOp.readBurst (burst_read_addr Command.FIFO) 32]) ∧
    (List.ofFn (fun _ : Fin 32 => (0 : Nat))).length = 32 :=
  (receive_pin_contract Unit true (Except.ok (fun _ => 0))).2 (fun _ => 0) rfl rfl

/-- C6: for every pin state and every bus behaviour, `receive` returns a
payload, would-block, or a transport (SPI) error, and never the
`RxOverflow` or `CrcMismatch` error kinds. -/
theorem receive_error_kinds (ε : Type) (gdo2 : Bool)
    (fifoRead : Except ε (Fin 32 → Nat)) :
    ((∃ p, (receive ε gdo2 fifoRead).1 = NbResult.ok p) ∨
      (receive ε gdo2 fifoRead).1 = NbResult.wouldBlock ∨
      ∃ e, (receive ε gdo2 fifoRead).1 = NbResult.err (Error.Spi e)) ∧
    (receive ε gdo2 fifoRead).1 ≠ NbResult.err Error.RxOverflow ∧
    (receive ε gdo2 fifoRead).1 ≠ NbResult.err Error.CrcMismatch := by
  cases gdo2 with
  | false => exact ⟨Or.inr (Or.inl rfl), by simp [receive], by simp [receive]⟩
  | true =>
    cases fifoRead with
    | ok d =>
      exact ⟨Or.inl ⟨List.ofFn d, rfl⟩, by simp [receive], by simp [receive]⟩
    | error e =>
      exact ⟨Or.inr (Or.inr ⟨e, rfl⟩), by simp [receive], by simp [receive]⟩

/-- Witness for C6 at a concrete pin state and failed bus transaction. -/
theorem receive_error_kinds_witness :
    (receive Unit true (Except.error ())).1 ≠ NbResult.err Error.RxOverflow ∧
    (receive Unit true (Except.error ())).1 ≠ NbResult.err Error.CrcMismatch :=
  (receive_error_kinds Unit true (Except.error ())).2

/-- C5: `transmit_start` performs only the FIFO burst write and the
Transmit strobe (its trace contains no status read and no flush-TX
strobe); `transmit_poll` performs exactly one status read and then either
flushes TX and completes (state IDLE) or reports would-block with no
further bus operation. -/
theorem transmit_two_phase (ε : Type) (env : Nat → Nat) (fuel k : Nat)
    (payload : List Nat) :
    transmit_start env fuel k payload =
      some (k, [BusOp.writeBurst (burst_write_addr Command.FIFO) payload,
                BusOp.strobe Command.STX]) ∧
    (∀ op ∈ [BusOp.writeBurst (burst_write_addr Command.FIFO) payload,
             BusOp.strobe Command.STX],
      (∀ a, op ≠ BusOp.readReg a) ∧ op ≠ BusOp.strobe Command.SFTX) ∧
    (marc_state (env k) = MachineState.IDLE →
      transmit_poll ε env k =
        (NbResult.ok (), k + 1,
         [BusOp.readReg Status.MARCSTATE, BusOp.strobe Command.SFTX])) ∧
    (marc_state (env k) ≠ MachineState.IDLE →
      transmit_poll ε env k =
        (NbResult.wouldBlock, k + 1, [BusOp.readReg Status.MARCSTATE])) := by
  refine ⟨rfl, ?_, ?_, ?_⟩
  · intro op hop
    simp only [List.mem_cons, List.mem_singleton, List.not_mem_nil, or_false] at hop
    rcases hop with h | h <;> subst h
    · exact ⟨fun a => by simp, by simp⟩
    · exact ⟨fun a => by simp, by simp [Command.STX, Command.SFTX]⟩
  · intro h
    simp [transmit_poll, h]
  · intro h
    simp [transmit_poll, h]

/-- Witness for C5: a transmit start followed by a completing poll. -/
theorem transmit_two_phase_witness :
    transmit_start (fun _ => 1) 1 0 (List.replicate 32 0) =
      some (0, [BusOp.writeBurst (burst_write_addr Command.FIFO) (List.replicate 32 0),
                BusOp.strobe Command.STX]) ∧
    transmit_poll Unit (fun _ => 1) 0 =
      (NbResult.ok (), 1,
       [BusOp.readReg Status.MARCSTATE, BusOp.strobe Command.SFTX]) :=
  ⟨(transmit_two_phase Unit (fun _ => 1) 1 0 (List.replicate 32 0)).1,
   (transmit_two_phase Unit (fun _ => 1) 1 0 (List.replicate 32 0)).2.2.1 (by decide)⟩

/-- C8: each read-modify-write setter (`set_modulation` on MDMCFG2,
`set_agc_target` on AGCCTRL2, `set_autocalibration` on MCSM0) writes back
a byte that agrees with the byte just read on every bit outside the named
field: field mutation never clobbers unrelated fields. -/
theorem modify_register_field_local (env : Nat → Nat) (k v i : Nat) (hi : i < 8) :
    (set_modulation env k v =
      (k + 1, [BusOp.readReg Config.MDMCFG2,
               BusOp.writeReg Config.MDMCFG2 (mod_format_set (env k) v)]) ∧
     (¬(4 ≤ i ∧ i < 7) →
       (mod_format_set (env k) v).testBit i = (env k).testBit i)) ∧
    (set_agc_target env k v =
      (k + 1, [BusOp.readReg Config.AGCCTRL2,
               BusOp.writeReg Config.AGCCTRL2 (magn_target_set (env k) v)]) ∧
     (¬ i < 3 →
       (magn_target_set (env k) v).testBit i = (env k).testBit i)) ∧
    (set_autocalibration env k v =
      (k + 1, [BusOp.readReg Config.MCSM0,
               BusOp.writeReg Config.MCSM0 (fs_autocal_set (env k) v)]) ∧
     (¬(4 ≤ i ∧ i < 6) →
       (fs_autocal_set (env k) v).testBit i = (env k).testBit i)) := by
  refine ⟨⟨rfl, fun h => ?_⟩, ⟨rfl, fun h => ?_⟩, ⟨rfl, fun h => ?_⟩⟩
  · exact setField_testBit_outside 4 3 (env k) v i hi (by omega)
  · exact setField_testBit_outside 0 3 (env k) v i hi (by omega)
  · exact setField_testBit_outside 4 2 (env k) v i hi (by omega)

/-- Witness for C8: bit 0 of MDMCFG2 (outside MOD_FORMAT) survives a
modulation write on the all-ones byte. -/
theorem modify_register_field_local_witness :
    (mod_format_set 255 0).testBit 0 = Nat.testBit 255 0 :=
  ((modify_register_field_local (fun _ => 255) 0 0 0 (by decide)).1).2 (by omega)

/-- C9: `await_machine_state` polls MARCSTATE in an unbounded loop with no
timeout: if the observed state never equals the target, it never returns
(for every fuel bound the loop is still running), and it returns
successfully exactly when a poll first observes the target, having issued
one status read per iteration. -/
theorem await_machine_state_unbounded (env : Nat → Nat) (target : Nat) :
    (∀ k, (∀ n, marc_state (env (k + n)) ≠ target) →
      ∀ fuel, await_machine_state env target fuel k = none) ∧
    (∀ fuel k k' tr, await_machine_state env target fuel k = some (k', tr) →
      ∃ n, n < fuel ∧ marc_state (env (k + n)) = target ∧
        (∀ m, m < n → marc_state (env (k + m)) ≠ target) ∧
        k' = k + n + 1 ∧
        tr = List.replicate (n + 1) (BusOp.readReg Status.MARCSTATE)) :=
  ⟨fun k h fuel => await_none_of_never env target fuel k h,
   fun fuel k k' tr h => await_some_spec env target fuel k k' tr h⟩

/-- Witness for C9: a status sequence that never shows the target keeps
the loop spinning past any fuel bound. -/
theorem await_machine_state_unbounded_witness :
    await_machine_state (fun _ => 0) 1 5 0 = none :=
  (await_machine_state_unbounded (fun _ => 0) 1).1 0 (fun n => by simp [marc_state]) 5

/-- C1: a successful blocking `transmit` of a 32-byte payload issues
exactly, in order: one FIFO burst write of the payload, one Transmit
strobe, one or more MARCSTATE status reads, and one flush-TX strobe —
nothing else. -/
theorem transmit_bus_sequence (env : Nat → Nat) (fuel k : Nat)
    (payload : List Nat) (k' : Nat) (tr : List BusOp)
    (_hlen : payload.length = 32)
    (h : transmit env fuel k payload = some (k', tr)) :
    ∃ n, 1 ≤ n ∧
      tr = BusOp.writeBurst (burst_write_addr Command.FIFO) payload ::
        BusOp.strobe Command.STX ::
        (List.replicate n (BusOp.readReg Status.MARCSTATE) ++
          [BusOp.strobe Command.SFTX]) := by
  cases h1 : await_machine_state env MachineState.TX fuel k with
  | none =>
    simp [transmit, set_radio_mode, send_radio_mode_strobe, h1] at h
  | some p1 =>
    obtain ⟨k2, t1⟩ := p1
    cases h2 : await_machine_state env MachineState.IDLE fuel k2 with
    | none =>
      simp [transmit, set_radio_mode, send_radio_mode_strobe, h1, h2] at h
    | some p2 =>
      obtain ⟨k3, t2⟩ := p2
      simp only [transmit, set_radio_mode, send_radio_mode_strobe, h1, h2,
        Option.some.injEq, Prod.mk.injEq] at h
      obtain ⟨n1, _, _, _, _, ht1⟩ := await_some_spec env MachineState.TX fuel k k2 t1 h1
      obtain ⟨n2, _, _, _, _, ht2⟩ := await_some_spec env MachineState.IDLE fuel k2 k3 t2 h2
      refine ⟨n1 + 1 + (n2 + 1), by omega, ?_⟩
      rw [← h.2, ht1, ht2]
      simp [write_fifo, flush_tx, List.replicate_add]

/-- Witness for C1: a concrete run (first poll sees TX, second sees IDLE)
produces the exact sequence with two polls. -/
theorem transmit_bus_sequence_witness :
    (List.replicate 32 (0 : Nat)).length = 32 ∧
    ∃ n, 1 ≤ n ∧
      ([BusOp.writeBurst (burst_write_addr Command.FIFO) (List.replicate 32 0),
        BusOp.strobe Command.STX, BusOp.readReg Status.MARCSTATE,
        BusOp.readReg Status.MARCSTATE, BusOp.strobe Command.SFTX] : List BusOp) =
        BusOp.writeBurst (burst_write_addr Command.FIFO) (List.replicate 32 0) ::
          BusOp.strobe Command.STX ::
          (List.replicate n (BusOp.readReg Status.MARCSTATE) ++
            [BusOp.strobe Command.SFTX]) :=
  ⟨by simp,
   transmit_bus_sequence (fun j => if j = 0 then 19 else 1) 2 0
     (List.replicate 32 0) 2 _ (by simp) rfl⟩

/-- C4 counterexample: `send_radio_mode_strobe` at `Calibrate` does not
issue exactly one strobe — with the chip already Idle it issues the SIDLE
strobe, one status read, and the SCAL strobe: two strobes. -/
theorem send_radio_mode_strobe_calibrate_counterexample :
    send_radio_mode_strobe (fun _ => 1) 1 0 RadioMode.Calibrate =
      some (MachineState.IDLE, 1,
        [BusOp.strobe Command.SIDLE, BusOp.readReg Status.MARCSTATE,
         BusOp.strobe Command.SCAL]) ∧
    List.countP (fun op => BusOp.isStrobe op)
      [BusOp.strobe Command.SIDLE, BusOp.readReg Status.MARCSTATE,
       BusOp.strobe Command.SCAL] = 2 ∧ (2 : Nat) ≠ 1 :=
  ⟨rfl, by decide, by decide⟩

/-- C4 (amended): `send_radio_mode_strobe` issues exactly one strobe for
Receive, Transmit and Idle, returning RX, TX and IDLE respectively; for
Calibrate it first routes through Idle — an SIDLE strobe plus at least one
status poll — and then issues the SCAL strobe (two strobes in total),
returning IDLE. -/
theorem send_radio_mode_strobe_spec (env : Nat → Nat) (fuel k : Nat)
    (m : RadioMode) (res : Nat × Nat × List BusOp)
    (h : send_radio_mode_strobe env fuel k m = some res) :
    (m = RadioMode.Receive → res = (MachineState.RX, k, [BusOp.strobe Command.SRX])) ∧
    (m = RadioMode.Transmit → res = (MachineState.TX, k, [BusOp.strobe Command.STX])) ∧
    (m = RadioMode.Idle → res = (MachineState.IDLE, k, [BusOp.strobe Command.SIDLE])) ∧
    (m = RadioMode.Calibrate → res.1 = MachineState.IDLE ∧
      ∃ n, 1 ≤ n ∧ res.2.2 =
        BusOp.strobe Command.SIDLE ::
          (List.replicate n (BusOp.readReg Status.MARCSTATE) ++
            [BusOp.strobe Command.SCAL])) := by
  cases m with
  | Receive =>
    simp only [send_radio_mode_strobe, Option.some.injEq] at h
    exact ⟨fun _ => h.symm, fun hc => absurd hc (by decide),
      fun hc => absurd hc (by decide), fun hc => absurd hc (by decide)⟩
  | Transmit =>
    simp only [send_radio_mode_strobe, Option.some.injEq] at h
    exact ⟨fun hc => absurd hc (by decide), fun _ => h.symm,
      fun hc => absurd hc (by decide), fun hc => absurd hc (by decide)⟩
  | Idle =>
    simp only [send_radio_mode_strobe, Option.some.injEq] at h
    exact ⟨fun hc => absurd hc (by decide), fun hc => absurd hc (by decide),
      fun _ => h.symm, fun hc => absurd hc (by decide)⟩
  | Calibrate =>
    refine ⟨fun hc => absurd hc (by decide), fun hc => absurd hc (by decide),
      fun hc => absurd hc (by decide), fun _ => ?_⟩
    cases h1 : await_machine_state env MachineState.IDLE fuel k with
    | none =>
      simp [send_radio_mode_strobe, set_radio_mode_idle, h1] at h
    | some p =>
      obtain ⟨k2, t⟩ := p
      simp only [send_radio_mode_strobe, set_radio_mode_idle, h1,
        Option.some.injEq] at h
      obtain ⟨n, _, _, _, _, ht⟩ := await_some_spec env MachineState.IDLE fuel k k2 t h1
      refine ⟨?_, n + 1, by omega, ?_⟩
      · rw [← h]
      · rw [← h, ht]
        simp

/-- Witness for C4 (amended) at Calibrate with the chip already Idle. -/
theorem send_radio_mode_strobe_spec_witness :
    (MachineState.IDLE : Nat) = MachineState.IDLE ∧
    ∃ n, 1 ≤ n ∧
      ([BusOp.strobe Command.SIDLE, BusOp.readReg Status.MARCSTATE,
        BusOp.strobe Command.SCAL] : List BusOp) =
        BusOp.strobe Command.SIDLE ::
          (List.replicate n (BusOp.readReg Status.MARCSTATE) ++
            [BusOp.strobe Command.SCAL]) :=
  (send_radio_mode_strobe_spec (fun _ => 1) 1 0 RadioMode.Calibrate
    (MachineState.IDLE, 1,
     [BusOp.strobe Command.SIDLE, BusOp.readReg Status.MARCSTATE,
      BusOp.strobe Command.SCAL]) rfl).2.2.2 rfl

end CC1101

